import Mathlib

/-!
Shallow embedding of the assessment pipeline of `src/main.py`
(FastAPI service "PandaFreeAI Engine").

External collaborators (OpenAI transcription / chat / embeddings, urllib
fetch, the Qdrant index client) are modelled as injected pure functions
that either return a value or raise a Python-level exception.  Python
exceptions are the `PyExn` type; the outer `except Exception` handler of
`assess_audio` converts any of them into an HTTP 500 error.  The
temporary audio file is modelled by an explicit filesystem state `FS`
threaded through the handler; `os.remove` calls are logged so that the
cleanup discipline is provable.  JSON values produced by `json.loads`
are the `Json` type; `jsonLoads` is an executable model of the stdlib
decoder (a syntactic subset: objects, arrays, unescaped strings,
decimal numbers, `true`/`false`/`null`).
-/

/-- Model of a raised Python exception, as observed through `str(e)`. -/
inductive PyExn where
  | jsonDecodeError
  | keyError (key : String)
  | typeError (msg : String)
  | attributeError (msg : String)
  | raised (msg : String)
deriving Repr, DecidableEq

/-- `str(e)` for the modelled exceptions (messages are modelled loosely). -/
def PyExn.message : PyExn → String
  | .jsonDecodeError => "Expecting value: invalid JSON"
  | .keyError k => k
  | .typeError m => m
  | .attributeError m => m
  | .raised m => m

/-- JSON values, as returned by `json.loads`. -/
inductive Json where
  | null
  | bool (b : Bool)
  | num (q : Rat)
  | str (s : String)
  | arr (xs : List Json)
  | obj (fields : List (String × Json))

/-- Python `d[key]` lookup semantics on a parsed JSON object: the last
occurrence of a key wins (as in a Python dict built by `json.loads`). -/
def objGet : List (String × Json) → String → Option Json
  | [], _ => none
  | (k, v) :: t, key =>
    match objGet t key with
    | some r => some r
    | none => if k = key then some v else none

/-- Python subscription `j[key]`: `KeyError` on a missing key, `TypeError`
when the value is not a dict. -/
def pyIndex (j : Json) (k : String) : Except PyExn Json :=
  match j with
  | .obj fields =>
    match objGet fields k with
    | some v => Except.ok v
    | none => Except.error (.keyError k)
  | _ => Except.error (.typeError "value is not subscriptable by string")

/- ---------- executable model of json.loads ---------- -/

def isWsChar (c : Char) : Bool :=
  c = ' ' || c = '\n' || c = '\t' || c = '\r'

def skipWs : List Char → List Char
  | [] => []
  | c :: t => if isWsChar c then skipWs t else c :: t

def lbrace : Char := Char.ofNat 123
def rbrace : Char := Char.ofNat 125
def quoteChar : Char := Char.ofNat 34

/-- Scan a string literal body up to the closing quote (escape sequences are
outside the modelled subset and make the parse fail). -/
def scanStr : List Char → Option (String × List Char)
  | [] => none
  | c :: t =>
    if c = quoteChar then some ("", t)
    else if c = '\\' then none
    else match scanStr t with
      | some (s, rest) => some (String.mk (c :: s.data), rest)
      | none => none

def scanDigits : List Char → (List Char × List Char)
  | [] => ([], [])
  | c :: t =>
    if c.isDigit then
      let (ds, rest) := scanDigits t
      (c :: ds, rest)
    else ([], c :: t)

def digitsToNat (ds : List Char) : Nat :=
  ds.foldl (fun acc c => acc * 10 + (c.toNat - 48)) 0

/-- Scan a JSON number: optional minus sign, integer part, optional
fractional part (exponents are outside the modelled subset). -/
def scanNum (s : List Char) : Option (Rat × List Char) :=
  let (neg, s1) := match s with
    | '-' :: t => (true, t)
    | _ => (false, s)
  match scanDigits s1 with
  | ([], _) => none
  | (ds, rest) =>
    let (fds, rest2) := match rest with
      | '.' :: t => scanDigits t
      | _ => ([], rest)
    if rest ≠ [] ∧ rest.head? = some '.' ∧ fds = [] then none
    else
      let n : Nat := digitsToNat ds * 10 ^ fds.length + digitsToNat fds
      let i : Int := if neg then -(n : Int) else (n : Int)
      some (mkRat i (10 ^ fds.length), rest2)

def takeLit (lit : List Char) (s : List Char) : Option (List Char) :=
  match lit, s with
  | [], rest => some rest
  | l :: lt, c :: t => if c = l then takeLit lt t else none
  | _ :: _, [] => none

mutual

def parseVal : Nat → List Char → Option (Json × List Char)
  | 0, _ => none
  | fuel + 1, s =>
    match skipWs s with
    | [] => none
    | c :: t =>
      if c = lbrace then parseMembers fuel t []
      else if c = '[' then parseItems fuel t []
      else if c = quoteChar then
        match scanStr t with
        | some (str, rest) => some (.str str, rest)
        | none => none
      else if c = 't' then
        match takeLit ['r', 'u', 'e'] t with
        | some rest => some (.bool true, rest)
        | none => none
      else if c = 'f' then
        match takeLit ['a', 'l', 's', 'e'] t with
        | some rest => some (.bool false, rest)
        | none => none
      else if c = 'n' then
        match takeLit ['u', 'l', 'l'] t with
        | some rest => some (.null, rest)
        | none => none
      else if c.isDigit || c = '-' then
        match scanNum (c :: t) with
        | some (q, rest) => some (.num q, rest)
        | none => none
      else none

def parseMembers : Nat → List Char → List (String × Json) → Option (Json × List Char)
  | 0, _, _ => none
  | fuel + 1, s, acc =>
    match skipWs s with
    | [] => none
    | c :: t =>
      if c = rbrace && acc.isEmpty then some (.obj [], t)
      else
        match skipWs (c :: t) with
        | [] => none
        | c2 :: t2 =>
          if c2 = quoteChar then
            match scanStr t2 with
            | none => none
            | some (key, rest) =>
              match skipWs rest with
              | ':' :: rest2 =>
                match parseVal fuel rest2 with
                | none => none
                | some (v, rest3) =>
                  match skipWs rest3 with
                  | ',' :: rest4 => parseMembers fuel rest4 (acc ++ [(key, v)])
                  | c3 :: rest4 =>
                    if c3 = rbrace then some (.obj (acc ++ [(key, v)]), rest4)
                    else none
                  | [] => none
              | _ => none
          else none

def parseItems : Nat → List Char → List Json → Option (Json × List Char)
  | 0, _, _ => none
  | fuel + 1, s, acc =>
    match skipWs s with
    | [] => none
    | ']' :: t =>
      if acc.isEmpty then some (.arr [], t) else none
    | s1 =>
      match parseVal fuel s1 with
      | none => none
      | some (v, rest) =>
        match skipWs rest with
        | ',' :: rest2 => parseItems fuel rest2 (acc ++ [v])
        | ']' :: rest2 => some (.arr (acc ++ [v]), rest2)
        | _ => none

end

/-- Model of `json.loads`: `none` means the input raises `JSONDecodeError`. -/
def jsonLoads (s : String) : Option Json :=
  match parseVal (s.length + 1) s.data with
  | some (j, rest) => if skipWs rest = [] then some j else none
  | none => none

/- ---------- filesystem model for the temporary audio file ---------- -/

/-- Filesystem state: file contents by path, a counter generating unique
temporary names (`tempfile.NamedTemporaryFile`), and a log of `os.remove`
calls so that the cleanup discipline is observable. -/
structure FS where
  files : List (String × List Nat)
  nextTemp : Nat
  removals : List String

def lookupEntry : List (String × List Nat) → String → Option (List Nat)
  | [], _ => none
  | (q, b) :: t, p => if q = p then some b else lookupEntry t p

def setEntry : List (String × List Nat) → String → List Nat → List (String × List Nat)
  | [], p, b => [(p, b)]
  | (q, c) :: t, p, b => if q = p then (p, b) :: t else (q, c) :: setEntry t p b

def removeEntry (l : List (String × List Nat)) (p : String) : List (String × List Nat) :=
  l.filter (fun e => ¬ (e.1 = p))

def tempName (n : Nat) : String := "tmp" ++ toString n ++ ".mp3"

def fsLookup (fs : FS) (p : String) : Option (List Nat) := lookupEntry fs.files p

def fsExists (fs : FS) (p : String) : Bool := (fsLookup fs p).isSome

def fsWrite (fs : FS) (p : String) (b : List Nat) : FS :=
  { fs with files := setEntry fs.files p b }

def fsRemove (fs : FS) (p : String) : FS :=
  { fs with files := removeEntry fs.files p, removals := fs.removals ++ [p] }

/-- `tempfile.NamedTemporaryFile(delete=False, suffix=".mp3")` followed by
`close()`: allocates a fresh unique name and creates an empty file there. -/
def fsCreateTemp (fs : FS) : FS :=
  { fs with files := setEntry fs.files (tempName fs.nextTemp) [],
            nextTemp := fs.nextTemp + 1 }

/- ---------- data model of the Qdrant side ---------- -/

/-- Payload dict attached to a hit; only the three keys the handler reads
are modelled, each possibly missing (`payload.get` then yields `None`). -/
structure Payload where
  bubble_id : Option Json
  name : Option Json
  specialty : Option Json

def emptyPayload : Payload := ⟨none, none, none⟩

/-- A search hit, covering the duck-typed shapes probed by the extraction
loop of `assess_audio` (lines 167-175 of `src/main.py`):
* `attrHit`: object with a `payload` attribute (its value may be `None`,
  as for a real `ScoredPoint` with no stored payload);
* `dictHit`: dict-like object supporting `.get` (legacy shape); `payload`
  is the value of its `payload` key when present;
* `plainObj`: object with neither a `payload` attribute nor `.get`.
In each shape `score` records whether a `score` attribute is exposed. -/
inductive Hit where
  | attrHit (payload : Option Payload) (score : Option Rat)
  | dictHit (payload : Option Payload) (score : Option Rat)
  | plainObj (score : Option Rat)

/-- `payload = hit.payload if hasattr(hit, 'payload') else hit.get('payload', \x7b\x7d)`. -/
def hitPayload : Hit → Except PyExn (Option Payload)
  | .attrHit p _ => Except.ok p
  | .dictHit p _ => Except.ok (some (p.getD emptyPayload))
  | .plainObj _ => Except.error (.attributeError "object has no attribute get")

/-- The `score` attribute of a hit, when exposed. -/
def hitScore : Hit → Option Rat
  | .attrHit _ s => s
  | .dictHit _ s => s
  | .plainObj s => s

def optJson (v : Option Json) : Json := v.getD Json.null

/-- One iteration of the extraction loop: build the recommendation dict
for a hit (the dict literal of lines 170-175, as an association list). -/
def extractTeacher (hit : Hit) : Except PyExn (List (String × Json)) :=
  match hitPayload hit with
  | Except.error e => Except.error e
  | Except.ok none => Except.error (.attributeError "NoneType object has no attribute get")
  | Except.ok (some p) =>
    match hitScore hit with
    | none => Except.error (.attributeError "object has no attribute score")
    | some s =>
      Except.ok [("bubble_id", optJson p.bubble_id),
                 ("name", optJson p.name),
                 ("match_score", Json.num s),
                 ("specialty", optJson p.specialty)]

/-- The whole `for hit in search_result` loop building `recommended_teachers`;
the first raising iteration aborts the request. -/
def extractTeachers : List Hit → Except PyExn (List (List (String × Json)))
  | [] => Except.ok []
  | h :: t =>
    match extractTeacher h with
    | Except.error e => Except.error e
    | Except.ok d =>
      match extractTeachers t with
      | Except.error e => Except.error e
      | Except.ok ds => Except.ok (d :: ds)

/-- Keyword arguments of the modern `search` call (line 119-123). -/
structure SearchArgs where
  collection_name : String
  query_vector : List Rat
  limit : Nat

/-- Keyword arguments of the legacy `search_points` call (line 128-132):
the vector parameter name is translated. -/
structure SearchPointsArgs where
  collection_name : String
  vector : List Rat
  limit : Nat

/-- Model of the injected Qdrant client object: each field is `some f`
exactly when `hasattr(qdrant, ...)` holds for the corresponding method;
the call itself may raise. -/
structure QdrantClient where
  search : Option (SearchArgs → Except PyExn (List Hit))
  search_points : Option (SearchPointsArgs → Except PyExn (List Hit))

def COLLECTION_NAME : String := "teachers_skills"

/-- `safe_qdrant_search` (lines 111-137): capability-probing façade.
`qdrant` is the module-level client, `none` when the library failed to
import. -/
def safe_qdrant_search (qdrant : Option QdrantClient) (query_vector : List Rat)
    (limit : Nat := 3) : Except PyExn (List Hit) :=
  match qdrant with
  | none => Except.ok []
  | some q =>
    match q.search with
    | some f => f ⟨COLLECTION_NAME, query_vector, limit⟩
    | none =>
      match q.search_points with
      | some g => g ⟨COLLECTION_NAME, query_vector, limit⟩
      | none => Except.ok []

/- ---------- collaborators and the request pipeline ---------- -/

/-- The injected external collaborators of the handler, each a pure
function that may raise: `urllib.request.urlopen` + `copyfileobj`
(returning the fetched bytes), `client.audio.transcriptions.create`
(returning `.text`), `client.chat.completions.create` (returning the
message content string), `client.embeddings.create` (returning the
embedding), and the module-level `qdrant` client with the recorded
installed version string. -/
structure Collaborators where
  urlopen : String → Except PyExn (List Nat)
  transcribe : List Nat → Except PyExn String
  chat : String → Except PyExn String
  embeddings : String → Except PyExn (List Rat)
  qdrant : Option QdrantClient
  INSTALLED_VERSION : String

/-- `get_embedding` (lines 91-93): `text.replace` raises `AttributeError`
when the dynamic value is not a string. -/
def get_embedding (c : Collaborators) (text : Json) : Except PyExn (List Rat) :=
  match text with
  | .str s => c.embeddings (s.replace "\n" " ")
  | _ => Except.error (.attributeError "object has no attribute replace")

/-- `analyze_audio_transcript` (lines 95-108): chat-completion call
followed by `json.loads` of the message content. -/
def analyze_audio_transcript (c : Collaborators) (transcript : String) :
    Except PyExn Json :=
  match c.chat transcript with
  | Except.error e => Except.error e
  | Except.ok content =>
    match jsonLoads content with
    | none => Except.error .jsonDecodeError
    | some j => Except.ok j

/-- The request field `file: Union[UploadFile, str]`: a binary upload or
a remote URL string. -/
inductive AudioSource where
  | binary (content : List Nat)
  | remote (url : String)

/-- The acquisition step (lines 146-152): the bytes that end up in the
temporary file. -/
def acquire (c : Collaborators) (file : AudioSource) : Except PyExn (List Nat) :=
  match file with
  | .remote url => c.urlopen url
  | .binary b => Except.ok b

/-- The successful response dict (lines 177-183). -/
structure AssessmentResponse where
  status : String
  transcript : String
  score : Json
  feedback : Json
  recommendations : List (List (String × Json))

/-- `raise HTTPException(status_code=500, detail=...)` of line 188. -/
structure HTTPException where
  status_code : Nat
  detail : String

def serverDetail (e : PyExn) (version : String) : String :=
  "Server Error: " ++ e.message ++ " | Installed Qdrant Ver: " ++ version

/-- The body of the `try:` block of `assess_audio` (lines 145-183), with
the filesystem threaded through: acquisition writes the audio bytes into
the temporary file, transcription reads them back, and the remaining
stages are pure calls.  Evaluation order follows the source: weakness
query lookup, embedding, search, extraction loop, then the response
dict literal (`overall_score` before `feedback`). -/
def assessBody (c : Collaborators) (file : AudioSource) (path : String) (fs : FS) :
    Except PyExn AssessmentResponse × FS :=
  match acquire c file with
  | Except.error e => (Except.error e, fs)
  | Except.ok bytes =>
    let fs1 := fsWrite fs path bytes
    match fsLookup fs1 path with
    | none => (Except.error (.raised "FileNotFoundError"), fs1)
    | some audio =>
      match c.transcribe audio with
      | Except.error e => (Except.error e, fs1)
      | Except.ok transcript_text =>
        match analyze_audio_transcript c transcript_text with
        | Except.error e => (Except.error e, fs1)
        | Except.ok ai_result =>
          match pyIndex ai_result "weakness_search_query" with
          | Except.error e => (Except.error e, fs1)
          | Except.ok wq =>
            match get_embedding c wq with
            | Except.error e => (Except.error e, fs1)
            | Except.ok query_vector =>
              match safe_qdrant_search c.qdrant query_vector 3 with
              | Except.error e => (Except.error e, fs1)
              | Except.ok search_result =>
                match extractTeachers search_result with
                | Except.error e => (Except.error e, fs1)
                | Except.ok recommended_teachers =>
                  match pyIndex ai_result "overall_score" with
                  | Except.error e => (Except.error e, fs1)
                  | Except.ok score =>
                    match pyIndex ai_result "feedback" with
                    | Except.error e => (Except.error e, fs1)
                    | Except.ok feedback =>
                      (Except.ok ⟨"success", transcript_text, score, feedback,
                                  recommended_teachers⟩, fs1)

/-- The value computed by the `try:` body, independent of the filesystem
(acquisition writes the audio bytes and transcription reads exactly
those bytes back). -/
def pipelineResult (c : Collaborators) (file : AudioSource) :
    Except PyExn AssessmentResponse :=
  match acquire c file with
  | Except.error e => Except.error e
  | Except.ok bytes =>
    match c.transcribe bytes with
    | Except.error e => Except.error e
    | Except.ok transcript_text =>
      match analyze_audio_transcript c transcript_text with
      | Except.error e => Except.error e
      | Except.ok ai_result =>
        match pyIndex ai_result "weakness_search_query" with
        | Except.error e => Except.error e
        | Except.ok wq =>
          match get_embedding c wq with
          | Except.error e => Except.error e
          | Except.ok query_vector =>
            match safe_qdrant_search c.qdrant query_vector 3 with
            | Except.error e => Except.error e
            | Except.ok search_result =>
              match extractTeachers search_result with
              | Except.error e => Except.error e
              | Except.ok recommended_teachers =>
                match pyIndex ai_result "overall_score" with
                | Except.error e => Except.error e
                | Except.ok score =>
                  match pyIndex ai_result "feedback" with
                  | Except.error e => Except.error e
                  | Except.ok feedback =>
                    Except.ok ⟨"success", transcript_text, score, feedback,
                               recommended_teachers⟩

/-- `assess_audio` (lines 139-191): create the temporary file, run the
`try:` body, convert any raised exception into the HTTP 500 error of the
`except` clause, and run the `finally:` cleanup
(`if os.path.exists(temp_file_path): os.remove(temp_file_path)`). -/
def assess_audio (c : Collaborators) (file : AudioSource) (fs : FS) :
    Except HTTPException AssessmentResponse × FS :=
  let path := tempName fs.nextTemp
  let fs0 := fsCreateTemp fs
  let bodyOut := assessBody c file path fs0
  let result : Except HTTPException AssessmentResponse :=
    match bodyOut.1 with
    | Except.ok r => Except.ok r
    | Except.error e => Except.error ⟨500, serverDetail e c.INSTALLED_VERSION⟩
  let fs2 := if fsExists bodyOut.2 path then fsRemove bodyOut.2 path else bodyOut.2
  (result, fs2)

/- ---------- concrete stub collaborators (deterministic test doubles) ---------- -/

def fs0 : FS := ⟨[], 0, []⟩

def speechText : String := "I really enjoy traveling because it broadens my perspective"

/-- A syntactically valid evaluation-service output. -/
def goodContent : String := "\x7b\"overall_score\": 7.0, \"feedback\": \"good\", \"weakness_search_query\": \"pronunciation clarity\"\x7d"

def goodJson : Json :=
  Json.obj [("overall_score", Json.num 7), ("feedback", Json.str "good"),
            ("weakness_search_query", Json.str "pronunciation clarity")]

/-- Three stubbed index hits with descending scores 0.91, 0.85, 0.80. -/
def stubHits : List Hit :=
  [Hit.attrHit (some ⟨some (Json.str "id1"), some (Json.str "Alice"), some (Json.str "fluency")⟩)
      (some ((91 : Rat) / 100)),
   Hit.attrHit (some ⟨some (Json.str "id2"), some (Json.str "Bo"), some (Json.str "grammar")⟩)
      (some ((85 : Rat) / 100)),
   Hit.attrHit (some ⟨some (Json.str "id3"), some (Json.str "Cy"), some (Json.str "lexis")⟩)
      (some ((80 : Rat) / 100))]

/-- The recommendation dicts the handler builds from `stubHits`. -/
def stubTeachers : List (List (String × Json)) :=
  [[("bubble_id", Json.str "id1"), ("name", Json.str "Alice"),
    ("match_score", Json.num ((91 : Rat) / 100)), ("specialty", Json.str "fluency")],
   [("bubble_id", Json.str "id2"), ("name", Json.str "Bo"),
    ("match_score", Json.num ((85 : Rat) / 100)), ("specialty", Json.str "grammar")],
   [("bubble_id", Json.str "id3"), ("name", Json.str "Cy"),
    ("match_score", Json.num ((80 : Rat) / 100)), ("specialty", Json.str "lexis")]]

/-- Baseline deterministic collaborators: every stage succeeds and the
index honours the requested limit. -/
def cBase : Collaborators :=
  { urlopen := fun _ => Except.ok [9, 9],
    transcribe := fun _ => Except.ok speechText,
    chat := fun _ => Except.ok goodContent,
    embeddings := fun _ => Except.ok [1, 0, 0],
    qdrant := some ⟨some (fun a => Except.ok (stubHits.take a.limit)), none⟩,
    INSTALLED_VERSION := "1.9.0" }

def cNoCaps : Collaborators := { cBase with qdrant := some ⟨none, none⟩ }

def cNoQdrant : Collaborators := { cBase with qdrant := none }

def cEmbedFail : Collaborators :=
  { cBase with embeddings := fun _ => Except.error (.raised "embedding service down") }

def cSearchRaises : Collaborators :=
  { cBase with qdrant := some ⟨some (fun _ => Except.error (.raised "search timed out")), none⟩ }

/-- Index returning a hit whose `payload` attribute is `None` (a real
`ScoredPoint` with no stored payload) but that does expose `score`. -/
def cNonePayloadHit : Collaborators :=
  { cBase with qdrant := some ⟨some (fun _ => Except.ok [Hit.attrHit none (some ((9 : Rat) / 10))]), none⟩ }

def cBadJson : Collaborators := { cBase with chat := fun _ => Except.ok "not json" }

def cBadJsonVariant : Collaborators :=
  { cBadJson with embeddings := fun _ => Except.error (.raised "must not be called"),
                  qdrant := none }

def cTransFail : Collaborators :=
  { cBase with transcribe := fun _ => Except.error (.raised "whisper down") }

def cRemoteEmpty : Collaborators := { cBase with urlopen := fun _ => Except.ok [] }

def fStub : SearchArgs → Except PyExn (List Hit) := fun _ => Except.ok stubHits

def gStub : SearchPointsArgs → Except PyExn (List Hit) := fun _ => Except.ok stubHits

/- ---------- helper lemmas ---------- -/

theorem lookupEntry_setEntry (l : List (String × List Nat)) (p : String) (b : List Nat) :
    lookupEntry (setEntry l p b) p = some b := by
  induction l with
  | nil => simp [setEntry, lookupEntry]
  | cons e t ih =>
    by_cases h : e.1 = p
    · simp [setEntry, lookupEntry, h]
    · simp [setEntry, lookupEntry, h, ih]

theorem lookupEntry_removeEntry (l : List (String × List Nat)) (p : String) :
    lookupEntry (removeEntry l p) p = none := by
  induction l with
  | nil => rfl
  | cons e t ih =>
    by_cases h : e.1 = p
    · simpa [removeEntry, h] using ih
    · simpa [removeEntry, lookupEntry, h] using ih

theorem fsLookup_fsWrite (fs : FS) (p : String) (b : List Nat) :
    fsLookup (fsWrite fs p b) p = some b := by
  simp [fsLookup, fsWrite, lookupEntry_setEntry]

/-- The filesystem after the `try:` body: the temporary file holds the
acquired bytes (or is still the empty file created at entry when
acquisition raised); nothing else changed. -/
theorem assessBody_snd (c : Collaborators) (file : AudioSource) (path : String) (fs : FS) :
    (assessBody c file path fs).2 =
      match acquire c file with
      | Except.ok b => fsWrite fs path b
      | Except.error _ => fs := by
  cases hA : acquire c file with
  | error e => simp [assessBody, hA]
  | ok bytes =>
    simp only [assessBody, hA, fsLookup_fsWrite]
    repeat' split
    all_goals rfl

/-- The value of the `try:` body does not depend on the filesystem it
started from: transcription reads back exactly the acquired bytes. -/
theorem assessBody_fst (c : Collaborators) (file : AudioSource) (path : String) (fs : FS) :
    (assessBody c file path fs).1 = pipelineResult c file := by
  cases hA : acquire c file with
  | error e => simp [assessBody, pipelineResult, hA]
  | ok bytes =>
    simp only [assessBody, pipelineResult, hA, fsLookup_fsWrite]
    repeat' split
    all_goals rfl

/-- The response of `assess_audio` is the body's value with raised
exceptions converted by the `except` clause, independent of the
filesystem. -/
theorem assess_audio_fst (c : Collaborators) (file : AudioSource) (fs : FS) :
    (assess_audio c file fs).1 =
      match pipelineResult c file with
      | Except.ok r => Except.ok r
      | Except.error e => Except.error ⟨500, serverDetail e c.INSTALLED_VERSION⟩ := by
  simp only [assess_audio, assessBody_fst]

theorem extractTeacher_keys (h : Hit) (d : List (String × Json))
    (hd : extractTeacher h = Except.ok d) :
    d.map Prod.fst = ["bubble_id", "name", "match_score", "specialty"] := by
  cases h with
  | attrHit p s =>
    cases p with
    | none => simp [extractTeacher, hitPayload] at hd
    | some p0 =>
      cases s with
      | none => simp [extractTeacher, hitPayload, hitScore] at hd
      | some s0 =>
        simp only [extractTeacher, hitPayload, hitScore] at hd
        cases hd
        rfl
  | dictHit p s =>
    cases s with
    | none => simp [extractTeacher, hitPayload, hitScore] at hd
    | some s0 =>
      simp only [extractTeacher, hitPayload, hitScore] at hd
      cases hd
      rfl
  | plainObj s => simp [extractTeacher, hitPayload] at hd

theorem extractTeacher_score (h : Hit) (d : List (String × Json))
    (hd : extractTeacher h = Except.ok d) :
    objGet d "match_score" = (hitScore h).map Json.num := by
  cases h with
  | attrHit p s =>
    cases p with
    | none => simp [extractTeacher, hitPayload] at hd
    | some p0 =>
      cases s with
      | none => simp [extractTeacher, hitPayload, hitScore] at hd
      | some s0 =>
        simp only [extractTeacher, hitPayload, hitScore] at hd
        cases hd
        rfl
  | dictHit p s =>
    cases s with
    | none => simp [extractTeacher, hitPayload, hitScore] at hd
    | some s0 =>
      simp only [extractTeacher, hitPayload, hitScore] at hd
      cases hd
      rfl
  | plainObj s => simp [extractTeacher, hitPayload] at hd

theorem extractTeachers_ok (hs : List Hit) (ts : List (List (String × Json)))
    (h : extractTeachers hs = Except.ok ts) :
    ts.length = hs.length ∧
    ts.map (fun t => objGet t "match_score") = hs.map (fun x => (hitScore x).map Json.num) ∧
    ∀ t ∈ ts, t.map Prod.fst = ["bubble_id", "name", "match_score", "specialty"] := by
  induction hs generalizing ts with
  | nil =>
    simp only [extractTeachers] at h
    cases h
    simp
  | cons hd tl ih =>
    simp only [extractTeachers] at h
    cases hE : extractTeacher hd with
    | error e => rw [hE] at h; cases h
    | ok d =>
      rw [hE] at h
      cases hR : extractTeachers tl with
      | error e => rw [hR] at h; cases h
      | ok ds =>
        rw [hR] at h
        cases h
        obtain ⟨ihl, ihs, ihk⟩ := ih ds hR
        refine ⟨by simp [ihl], by simp [ihs, extractTeacher_score hd d hE], ?_⟩
        intro t ht
        rcases List.mem_cons.mp ht with h1 | h2
        · rw [h1]; exact extractTeacher_keys hd d hE
        · exact ihk t h2

/- ---------- claims ---------- -/

/-- Claim C2: for every call to `assess_audio` and every exit path
(success or any stage failure), the temporary audio file created at the
start of the request is removed from the filesystem exactly once — the
removal log gains exactly one entry, for that path — and the file is
gone before the handler returns. -/
theorem c2_temp_file_cleanup (c : Collaborators) (file : AudioSource) (fs : FS) :
    ((assess_audio c file fs).2).removals = fs.removals ++ [tempName fs.nextTemp] ∧
    fsLookup (assess_audio c file fs).2 (tempName fs.nextTemp) = none := by
  have hsnd := assessBody_snd c file (tempName fs.nextTemp) (fsCreateTemp fs)
  cases hA : acquire c file with
  | error e =>
    rw [hA] at hsnd
    simp only [assess_audio]
    rw [hsnd]
    simp [fsExists, fsLookup, fsCreateTemp, fsRemove, lookupEntry_setEntry,
          lookupEntry_removeEntry]
  | ok b =>
    rw [hA] at hsnd
    simp only [assess_audio]
    rw [hsnd]
    simp [fsExists, fsLookup, fsWrite, fsCreateTemp, fsRemove, lookupEntry_setEntry,
          lookupEntry_removeEntry]

/-- Claim C7: for every binary audio payload of at least one byte, the
acquisition step copies the payload without truncation or padding: the
acquired bytes are exactly the payload, and the temporary file after the
body's acquisition step holds content of the same length. -/
theorem c7_binary_copy (c : Collaborators) (b : List Nat) (fs : FS)
    (hb : 1 ≤ b.length) :
    acquire c (AudioSource.binary b) = Except.ok b ∧
    ∃ content,
      fsLookup ((assessBody c (AudioSource.binary b) (tempName fs.nextTemp)
          (fsCreateTemp fs)).2) (tempName fs.nextTemp) = some content ∧
      content.length = b.length := by
  refine ⟨rfl, ⟨b, ?_, rfl⟩⟩
  rw [assessBody_snd]
  simp [acquire, fsLookup_fsWrite]

/-- Claim C7 witness: a one-byte payload is copied intact. -/
theorem c7_witness :
    acquire cBase (AudioSource.binary [7]) = Except.ok [7] ∧
    ∃ content,
      fsLookup ((assessBody cBase (AudioSource.binary [7]) (tempName fs0.nextTemp)
          (fsCreateTemp fs0)).2) (tempName fs0.nextTemp) = some content ∧
      content.length = ([7] : List Nat).length :=
  c7_binary_copy cBase [7] fs0 (by decide)

/-- Claim C8: with identical deterministic stubbed collaborators and
identical input, the response does not depend on the incoming filesystem
state at all; in particular a second call, run on the state left behind
by the first, returns the identical response. -/
theorem c8_idempotent (c : Collaborators) (file : AudioSource) (fs fsOther : FS) :
    (assess_audio c file fs).1 = (assess_audio c file fsOther).1 ∧
    (assess_audio c file ((assess_audio c file fs).2)).1 = (assess_audio c file fs).1 := by
  constructor <;> simp only [assess_audio_fst]

/-- Claim C5: the version-tolerant search façade tries capabilities in a
fixed preference order — the primary `search` operation when the client
exposes it, else the legacy `search_points` operation with the translated
vector parameter name, else it returns an empty list without raising —
and when neither capability is present `assess_audio` still returns a
successful response with an empty recommendation list and the evaluator's
score and feedback unchanged. -/
theorem c5_facade :
    (∀ (q : QdrantClient) (v : List Rat) (lim : Nat) f,
        q.search = some f →
        safe_qdrant_search (some q) v lim = f ⟨COLLECTION_NAME, v, lim⟩) ∧
    (∀ (q : QdrantClient) (v : List Rat) (lim : Nat) g,
        q.search = none → q.search_points = some g →
        safe_qdrant_search (some q) v lim = g ⟨COLLECTION_NAME, v, lim⟩) ∧
    (∀ (q : QdrantClient) (v : List Rat) (lim : Nat),
        q.search = none → q.search_points = none →
        safe_qdrant_search (some q) v lim = Except.ok []) ∧
    (∀ (c : Collaborators) (fs : FS) (b : List Nat) (q : QdrantClient)
        (tr content : String) (j : Json) (wq : String) (vec : List Rat) (sc fb : Json),
        c.qdrant = some q → q.search = none → q.search_points = none →
        c.transcribe b = Except.ok tr →
        c.chat tr = Except.ok content →
        jsonLoads content = some j →
        pyIndex j "weakness_search_query" = Except.ok (Json.str wq) →
        c.embeddings (wq.replace "\n" " ") = Except.ok vec →
        pyIndex j "overall_score" = Except.ok sc →
        pyIndex j "feedback" = Except.ok fb →
        (assess_audio c (AudioSource.binary b) fs).1 =
          Except.ok ⟨"success", tr, sc, fb, []⟩) := by
  refine ⟨?_, ?_, ?_, ?_⟩
  · intro q v lim f hf
    simp [safe_qdrant_search, hf]
  · intro q v lim g hf hg
    simp [safe_qdrant_search, hf, hg]
  · intro q v lim hf hg
    simp [safe_qdrant_search, hf, hg]
  · intro c fs b q tr content j wq vec sc fb hq hf hg ht hc hj hw he hsc hfb
    rw [assess_audio_fst]
    simp [pipelineResult, acquire, analyze_audio_transcript, get_embedding,
          safe_qdrant_search, extractTeachers, hq, hf, hg, ht, hc, hj, hw, he, hsc, hfb]

/-- Claim C5 witness: the three façade branches and the no-capability
end-to-end run, on concrete stubs. -/
theorem c5_witness :
    safe_qdrant_search (some ⟨some fStub, none⟩) [1] 3 = fStub ⟨COLLECTION_NAME, [1], 3⟩ ∧
    safe_qdrant_search (some ⟨none, some gStub⟩) [1] 3 = gStub ⟨COLLECTION_NAME, [1], 3⟩ ∧
    safe_qdrant_search (some ⟨none, none⟩) [1] 3 = Except.ok [] ∧
    (assess_audio cNoCaps (AudioSource.binary [1]) fs0).1 =
      Except.ok ⟨"success", speechText, Json.num 7, Json.str "good", []⟩ :=
  ⟨c5_facade.1 ⟨some fStub, none⟩ [1] 3 fStub rfl,
   c5_facade.2.1 ⟨none, some gStub⟩ [1] 3 gStub rfl rfl,
   c5_facade.2.2.1 ⟨none, none⟩ [1] 3 rfl rfl,
   c5_facade.2.2.2 cNoCaps fs0 [1] ⟨none, none⟩ speechText goodContent goodJson
     "pronunciation clarity" [1, 0, 0] (Json.num 7) (Json.str "good")
     rfl rfl rfl rfl rfl rfl rfl rfl rfl rfl⟩

/-- Claim C9 (implicit): when the index client library failed to import,
so the injected client is `None`, the façade returns an empty list
without raising and the pipeline still completes successfully with an
empty recommendation list. -/
theorem c9_missing_client :
    (∀ (v : List Rat) (lim : Nat), safe_qdrant_search none v lim = Except.ok []) ∧
    (∀ (c : Collaborators) (fs : FS) (b : List Nat)
        (tr content : String) (j : Json) (wq : String) (vec : List Rat) (sc fb : Json),
        c.qdrant = none →
        c.transcribe b = Except.ok tr →
        c.chat tr = Except.ok content →
        jsonLoads content = some j →
        pyIndex j "weakness_search_query" = Except.ok (Json.str wq) →
        c.embeddings (wq.replace "\n" " ") = Except.ok vec →
        pyIndex j "overall_score" = Except.ok sc →
        pyIndex j "feedback" = Except.ok fb →
        (assess_audio c (AudioSource.binary b) fs).1 =
          Except.ok ⟨"success", tr, sc, fb, []⟩) := by
  constructor
  · intro v lim; rfl
  · intro c fs b tr content j wq vec sc fb hq ht hc hj hw he hsc hfb
    rw [assess_audio_fst]
    simp [pipelineResult, acquire, analyze_audio_transcript, get_embedding,
          safe_qdrant_search, extractTeachers, hq, ht, hc, hj, hw, he, hsc, hfb]

/-- Claim C9 witness: concrete run with an absent client. -/
theorem c9_witness :
    (assess_audio cNoQdrant (AudioSource.binary [1]) fs0).1 =
      Except.ok ⟨"success", speechText, Json.num 7, Json.str "good", []⟩ :=
  c9_missing_client.2 cNoQdrant fs0 [1] speechText goodContent goodJson
    "pronunciation clarity" [1, 0, 0] (Json.num 7) (Json.str "good")
    rfl rfl rfl rfl rfl rfl rfl rfl

/-- Claim C6: for every sequence of hits returned by an index that
honours the requested limit, the handler emits the recommendation
entries in exactly the order the index returned them (no re-sorting),
at most 3 of them, each carrying the four fields; and on the concrete
stub returning three hits with scores 0.91, 0.85, 0.80 the response
lists them in that exact descending order with all four fields
populated. -/
theorem c6_ordering :
    (∀ (c : Collaborators) (fs : FS) (b : List Nat) (hits : List Hit)
        (spts : Option (SearchPointsArgs → Except PyExn (List Hit)))
        (tr content : String) (j : Json) (wq : String) (vec : List Rat)
        (ts : List (List (String × Json))) (sc fb : Json),
        c.qdrant = some ⟨some (fun a => Except.ok (hits.take a.limit)), spts⟩ →
        c.transcribe b = Except.ok tr →
        c.chat tr = Except.ok content →
        jsonLoads content = some j →
        pyIndex j "weakness_search_query" = Except.ok (Json.str wq) →
        c.embeddings (wq.replace "\n" " ") = Except.ok vec →
        extractTeachers (hits.take 3) = Except.ok ts →
        pyIndex j "overall_score" = Except.ok sc →
        pyIndex j "feedback" = Except.ok fb →
        (assess_audio c (AudioSource.binary b) fs).1 =
            Except.ok ⟨"success", tr, sc, fb, ts⟩ ∧
          ts.length ≤ 3 ∧
          ts.map (fun t => objGet t "match_score") =
            (hits.take 3).map (fun x => (hitScore x).map Json.num)) ∧
    (assess_audio cBase (AudioSource.binary [1]) fs0).1 =
      Except.ok ⟨"success", speechText, Json.num 7, Json.str "good", stubTeachers⟩ := by
  constructor
  · intro c fs b hits spts tr content j wq vec ts sc fb hq ht hc hj hw he hx hsc hfb
    obtain ⟨hlen, hscores, _⟩ := extractTeachers_ok (hits.take 3) ts hx
    refine ⟨?_, ?_, hscores⟩
    · rw [assess_audio_fst]
      simp [pipelineResult, acquire, analyze_audio_transcript, get_embedding,
            safe_qdrant_search, hq, ht, hc, hj, hw, he, hx, hsc, hfb]
    · rw [hlen]
      exact List.length_take_le 3 hits
  · rfl

/-- Claim C6 witness: the general part applied to the concrete stub
index returning scores [0.91, 0.85, 0.80]. -/
theorem c6_witness :
    (assess_audio cBase (AudioSource.binary [1]) fs0).1 =
        Except.ok ⟨"success", speechText, Json.num 7, Json.str "good", stubTeachers⟩ ∧
      stubTeachers.length ≤ 3 ∧
      stubTeachers.map (fun t => objGet t "match_score") =
        (stubHits.take 3).map (fun x => (hitScore x).map Json.num) :=
  c6_ordering.1 cBase fs0 [1] stubHits none speechText goodContent goodJson
    "pronunciation clarity" [1, 0, 0] stubTeachers (Json.num 7) (Json.str "good")
    rfl rfl rfl rfl rfl rfl rfl rfl rfl

/-- Claim C1 counterexample: an exception raised while computing the
embedding of the weakness query is NOT converted into an empty
recommendation list — the whole assessment fails with the generic
HTTP 500 error, although transcript, score and feedback were already
computed. -/
theorem c1_counterexample :
    (assess_audio cEmbedFail (AudioSource.binary [1]) fs0).1 =
      Except.error ⟨500,
        "Server Error: embedding service down | Installed Qdrant Ver: 1.9.0"⟩ := rfl

/-- Claim C1 amended: an exception raised in the recommendation stage —
while computing the embedding, while executing an available search
operation, or while extracting fields from the hits — propagates to the
outer handler and fails the whole assessment with the HTTP 500 error;
only the façade's degraded cases (absent client or absent capabilities)
yield an empty recommendation list with a successful response. -/
theorem c1_amended :
    (∀ (c : Collaborators) (fs : FS) (b : List Nat)
        (tr content : String) (j : Json) (wq : String) (e : PyExn),
        c.transcribe b = Except.ok tr →
        c.chat tr = Except.ok content →
        jsonLoads content = some j →
        pyIndex j "weakness_search_query" = Except.ok (Json.str wq) →
        c.embeddings (wq.replace "\n" " ") = Except.error e →
        (assess_audio c (AudioSource.binary b) fs).1 =
          Except.error ⟨500, serverDetail e c.INSTALLED_VERSION⟩) ∧
    (∀ (c : Collaborators) (fs : FS) (b : List Nat) (q : QdrantClient)
        (f : SearchArgs → Except PyExn (List Hit))
        (tr content : String) (j : Json) (wq : String) (vec : List Rat) (e : PyExn),
        c.qdrant = some q → q.search = some f →
        c.transcribe b = Except.ok tr →
        c.chat tr = Except.ok content →
        jsonLoads content = some j →
        pyIndex j "weakness_search_query" = Except.ok (Json.str wq) →
        c.embeddings (wq.replace "\n" " ") = Except.ok vec →
        f ⟨COLLECTION_NAME, vec, 3⟩ = Except.error e →
        (assess_audio c (AudioSource.binary b) fs).1 =
          Except.error ⟨500, serverDetail e c.INSTALLED_VERSION⟩) ∧
    (∀ (c : Collaborators) (fs : FS) (b : List Nat)
        (tr content : String) (j : Json) (wq : String) (vec : List Rat)
        (hits : List Hit) (e : PyExn),
        c.transcribe b = Except.ok tr →
        c.chat tr = Except.ok content →
        jsonLoads content = some j →
        pyIndex j "weakness_search_query" = Except.ok (Json.str wq) →
        c.embeddings (wq.replace "\n" " ") = Except.ok vec →
        safe_qdrant_search c.qdrant vec 3 = Except.ok hits →
        extractTeachers hits = Except.error e →
        (assess_audio c (AudioSource.binary b) fs).1 =
          Except.error ⟨500, serverDetail e c.INSTALLED_VERSION⟩) := by
  refine ⟨?_, ?_, ?_⟩
  · intro c fs b tr content j wq e ht hc hj hw he
    rw [assess_audio_fst]
    simp [pipelineResult, acquire, analyze_audio_transcript, get_embedding,
          ht, hc, hj, hw, he]
  · intro c fs b q f tr content j wq vec e hq hf ht hc hj hw he hcall
    rw [assess_audio_fst]
    simp [pipelineResult, acquire, analyze_audio_transcript, get_embedding,
          safe_qdrant_search, hq, hf, ht, hc, hj, hw, he, hcall]
  · intro c fs b tr content j wq vec hits e ht hc hj hw he hs hx
    rw [assess_audio_fst]
    simp [pipelineResult, acquire, analyze_audio_transcript, get_embedding,
          ht, hc, hj, hw, he, hs, hx]

/-- Claim C1 amended witness: one concrete instance of each propagating
sub-stage failure (embedding, search call, hit extraction). -/
theorem c1_witness :
    (assess_audio cEmbedFail (AudioSource.binary [1]) fs0).1 =
        Except.error ⟨500, serverDetail (.raised "embedding service down")
          cEmbedFail.INSTALLED_VERSION⟩ ∧
    (assess_audio cSearchRaises (AudioSource.binary [1]) fs0).1 =
        Except.error ⟨500, serverDetail (.raised "search timed out")
          cSearchRaises.INSTALLED_VERSION⟩ ∧
    (assess_audio cNonePayloadHit (AudioSource.binary [1]) fs0).1 =
        Except.error ⟨500, serverDetail
          (.attributeError "NoneType object has no attribute get")
          cNonePayloadHit.INSTALLED_VERSION⟩ :=
  ⟨c1_amended.1 cEmbedFail fs0 [1] speechText goodContent goodJson
     "pronunciation clarity" (.raised "embedding service down")
     rfl rfl rfl rfl rfl,
   c1_amended.2.1 cSearchRaises fs0 [1]
     ⟨some (fun _ => Except.error (.raised "search timed out")), none⟩
     (fun _ => Except.error (.raised "search timed out"))
     speechText goodContent goodJson "pronunciation clarity" [1, 0, 0]
     (.raised "search timed out") rfl rfl rfl rfl rfl rfl rfl rfl,
   c1_amended.2.2 cNonePayloadHit fs0 [1] speechText goodContent goodJson
     "pronunciation clarity" [1, 0, 0] [Hit.attrHit none (some ((9 : Rat) / 10))]
     (.attributeError "NoneType object has no attribute get")
     rfl rfl rfl rfl rfl rfl rfl⟩

/-- Claim C3 counterexample: a zero-byte acquisition — in both the
binary-payload and the remote-locator shape — does NOT fail with any
EmptyPayload error: the request proceeds to transcription and completes
successfully. -/
theorem c3_counterexample :
    (assess_audio cBase (AudioSource.binary []) fs0).1 =
      Except.ok ⟨"success", speechText, Json.num 7, Json.str "good", stubTeachers⟩ ∧
    (assess_audio cRemoteEmpty (AudioSource.remote "http://example.com/a.mp3") fs0).1 =
      Except.ok ⟨"success", speechText, Json.num 7, Json.str "good", stubTeachers⟩ :=
  ⟨rfl, rfl⟩

/-- Claim C3 amended: the handler performs no zero-byte check and has no
EmptyPayload error kind; a zero-byte local copy (from either source
shape) is passed on to the transcription stage, whose failure, if any,
surfaces as the generic HTTP 500 server error. -/
theorem c3_amended :
    (∀ (c : Collaborators) (fs : FS) (e : PyExn),
        c.transcribe [] = Except.error e →
        (assess_audio c (AudioSource.binary []) fs).1 =
          Except.error ⟨500, serverDetail e c.INSTALLED_VERSION⟩) ∧
    (∀ (c : Collaborators) (fs : FS) (url : String) (e : PyExn),
        c.urlopen url = Except.ok [] →
        c.transcribe [] = Except.error e →
        (assess_audio c (AudioSource.remote url) fs).1 =
          Except.error ⟨500, serverDetail e c.INSTALLED_VERSION⟩) := by
  constructor
  · intro c fs e ht
    rw [assess_audio_fst]
    simp [pipelineResult, acquire, ht]
  · intro c fs url e hu ht
    rw [assess_audio_fst]
    simp [pipelineResult, acquire, hu, ht]

/-- Claim C3 amended witness: zero-byte payloads reach transcription,
whose stubbed failure is what the request reports. -/
theorem c3_witness :
    (assess_audio cTransFail (AudioSource.binary []) fs0).1 =
        Except.error ⟨500, serverDetail (.raised "whisper down")
          cTransFail.INSTALLED_VERSION⟩ ∧
    (assess_audio { cTransFail with urlopen := fun _ => Except.ok [] }
        (AudioSource.remote "http://example.com/a.mp3") fs0).1 =
        Except.error ⟨500, serverDetail (.raised "whisper down")
          cTransFail.INSTALLED_VERSION⟩ :=
  ⟨c3_amended.1 cTransFail fs0 (.raised "whisper down") rfl,
   c3_amended.2 { cTransFail with urlopen := fun _ => Except.ok [] } fs0
     "http://example.com/a.mp3" (.raised "whisper down") rfl rfl⟩

/-- Claim C4 counterexample: when the evaluation service returns
syntactically invalid JSON the request fails, but not with a distinct
EvaluationParseError kind — it fails with exactly the same generic
status-500 "Server Error" failure shape that any other stage failure
(here: a transcription failure) produces. -/
theorem c4_counterexample :
    (assess_audio cBadJson (AudioSource.binary [1]) fs0).1 =
      Except.error ⟨500,
        "Server Error: Expecting value: invalid JSON | Installed Qdrant Ver: 1.9.0"⟩ ∧
    (assess_audio cTransFail (AudioSource.binary [1]) fs0).1 =
      Except.error ⟨500,
        "Server Error: whisper down | Installed Qdrant Ver: 1.9.0"⟩ :=
  ⟨rfl, rfl⟩

/-- Claim C4 amended: if the evaluation service's output is not
parseable as JSON, the request fails with the single generic failure
kind of the handler (HTTP 500, the decode error's message embedded in
the detail string) rather than a distinct EvaluationParseError kind, and
the recommendation stage is never invoked: the outcome is identical for
any choice of embedding and index collaborators. -/
theorem c4_amended :
    ∀ (c cAlt : Collaborators) (fs : FS) (b : List Nat) (tr content : String),
      c.transcribe b = Except.ok tr →
      c.chat tr = Except.ok content →
      jsonLoads content = none →
      cAlt.urlopen = c.urlopen → cAlt.transcribe = c.transcribe → cAlt.chat = c.chat →
      cAlt.INSTALLED_VERSION = c.INSTALLED_VERSION →
      (assess_audio c (AudioSource.binary b) fs).1 =
          Except.error ⟨500, serverDetail PyExn.jsonDecodeError c.INSTALLED_VERSION⟩ ∧
      (assess_audio cAlt (AudioSource.binary b) fs).1 =
          Except.error ⟨500, serverDetail PyExn.jsonDecodeError c.INSTALLED_VERSION⟩ := by
  intro c cAlt fs b tr content ht hc hj hu htr hch hv
  constructor
  · rw [assess_audio_fst]
    simp [pipelineResult, acquire, analyze_audio_transcript, ht, hc, hj]
  · rw [assess_audio_fst]
    simp [pipelineResult, acquire, analyze_audio_transcript, htr, hch, hv, ht, hc, hj]

/-- Claim C4 amended witness: the invalid-JSON run fails identically
whether or not the embedding and index collaborators would themselves
fail (they are never consulted). -/
theorem c4_witness :
    (assess_audio cBadJson (AudioSource.binary [1]) fs0).1 =
        Except.error ⟨500, serverDetail PyExn.jsonDecodeError cBadJson.INSTALLED_VERSION⟩ ∧
    (assess_audio cBadJsonVariant (AudioSource.binary [1]) fs0).1 =
        Except.error ⟨500, serverDetail PyExn.jsonDecodeError cBadJson.INSTALLED_VERSION⟩ :=
  c4_amended cBadJson cBadJsonVariant fs0 [1] speechText "not json"
    rfl rfl rfl rfl rfl rfl rfl

/-- Claim C10 counterexample: a hit that does expose a `score` attribute
but whose payload is absent (`payload` attribute present with value
`None`, as for a stored point without payload) does NOT yield an entry
with null fields — the extraction raises and the whole request fails. -/
theorem c10_counterexample :
    (assess_audio cNonePayloadHit (AudioSource.binary [1]) fs0).1 =
      Except.error ⟨500,
        "Server Error: NoneType object has no attribute get | Installed Qdrant Ver: 1.9.0"⟩ := rfl

/-- Claim C10 amended: every successfully produced recommendation entry
has exactly the four keys bubble_id, name, match_score, specialty, in
that order; payload fields missing from a present payload dict — and the
whole payload key missing from a dict-shaped hit — become null values
rather than omitted keys or failures, provided the hit exposes a score
attribute; but a hit whose payload attribute is itself None makes the
extraction raise (failing the request). -/
theorem c10_amended :
    (∀ (h : Hit) (d : List (String × Json)), extractTeacher h = Except.ok d →
        d.map Prod.fst = ["bubble_id", "name", "match_score", "specialty"]) ∧
    (∀ (p : Payload) (s : Rat),
        extractTeacher (Hit.attrHit (some p) (some s)) =
          Except.ok [("bubble_id", optJson p.bubble_id), ("name", optJson p.name),
                     ("match_score", Json.num s), ("specialty", optJson p.specialty)]) ∧
    (∀ (s : Rat),
        extractTeacher (Hit.dictHit none (some s)) =
          Except.ok [("bubble_id", Json.null), ("name", Json.null),
                     ("match_score", Json.num s), ("specialty", Json.null)]) ∧
    (∀ (s : Option Rat),
        extractTeacher (Hit.attrHit none s) =
          Except.error (PyExn.attributeError "NoneType object has no attribute get")) := by
  refine ⟨extractTeacher_keys, fun p s => rfl, fun s => rfl, fun s => rfl⟩

/-- Claim C10 amended witness: a fully-populated entry, an entry from an
empty payload (all three optional fields null), and the raising
None-payload case, all concrete. -/
theorem c10_witness :
    (stubTeachers.get! 0).map Prod.fst = ["bubble_id", "name", "match_score", "specialty"] ∧
    extractTeacher (Hit.attrHit (some emptyPayload) (some ((1 : Rat) / 2))) =
      Except.ok [("bubble_id", Json.null), ("name", Json.null),
                 ("match_score", Json.num ((1 : Rat) / 2)), ("specialty", Json.null)] ∧
    extractTeacher (Hit.dictHit none (some ((1 : Rat) / 2))) =
      Except.ok [("bubble_id", Json.null), ("name", Json.null),
                 ("match_score", Json.num ((1 : Rat) / 2)), ("specialty", Json.null)] ∧
    extractTeacher (Hit.attrHit none (some ((9 : Rat) / 10))) =
      Except.error (PyExn.attributeError "NoneType object has no attribute get") :=
  ⟨c10_amended.1 (Hit.attrHit (some ⟨some (Json.str "id1"), some (Json.str "Alice"),
      some (Json.str "fluency")⟩) (some ((91 : Rat) / 100))) (stubTeachers.get! 0) rfl,
   c10_amended.2.1 emptyPayload ((1 : Rat) / 2),
   c10_amended.2.2.1 ((1 : Rat) / 2),
   c10_amended.2.2.2 (some ((9 : Rat) / 10))⟩
